import Mathlib

set_option maxHeartbeats 1000000

/-!
Verification development for `src/document_processor/docling_processor.py`.

The file is a shallow embedding of the module: Python values handled by
`safe_serialize_tabledata` become the inductive `PyVal`; the processor's
mutable attributes (`converter`, `chunker`, `ocr_initialized`) become the
record `ProcState`; external effects (filesystem probes, the conversion
engine, converter-construction failures, the chunker outcome, the clock)
become the explicit environment `ProcEnv`; file writes are collected in a
list; exceptions become `Except` / error options.
-/

/--
Model of a Python runtime value as seen by `safe_serialize_tabledata`
(lines 49-75 of the source):
* `atom s`  - a value on which `json.dumps` succeeds and that is neither
  iterable-for-our-purposes nor owns `__dict__` (str, int, bool, None,
  ... abstracted by a rendering `s`);
* `raw s`   - a non-iterable value without `__dict__` on which `json.dumps`
  fails; `str` of it is `s`;
* `pyList`  - an iterable that is not `str`/`bytes`/dict, yielding `items`;
* `pyDict`  - a dict with string keys (iterating it yields its keys);
* `obj`     - an object owning `__dict__` with class name `cls` and
  attribute dictionary `fields`.
-/
inductive PyVal where
  | atom (s : String)
  | raw (s : String)
  | pyList (items : List PyVal)
  | pyDict (entries : List (String × PyVal))
  | obj (cls : String) (fields : List (String × PyVal))

/-- Python `str(value)` for the values of the model; in the source it is
only ever applied to `raw` values (the other branches are handled before
the `str` fallback). -/
def strOf : PyVal → String
  | .atom s => s
  | .raw s => s
  | .pyList _ => "<iterable>"
  | .pyDict _ => "<dict>"
  | .obj c _ => "<" ++ c ++ " object>"

mutual

/-- Whether `json.dumps` succeeds on the value without any `default`
hook: atoms always, lists and dicts when their members pass, custom
objects and `raw` values never. -/
def jsonSerializable : PyVal → Bool
  | .atom _ => true
  | .raw _ => false
  | .pyList l => jsonSerializableList l
  | .pyDict e => jsonSerializableEntries e
  | .obj _ _ => false

/-- All items of a list are `json.dumps`-serializable. -/
def jsonSerializableList : List PyVal → Bool
  | [] => true
  | x :: xs => jsonSerializable x && jsonSerializableList xs

/-- All values of a string-keyed dict are `json.dumps`-serializable. -/
def jsonSerializableEntries : List (String × PyVal) → Bool
  | [] => true
  | kv :: rest => jsonSerializable kv.2 && jsonSerializableEntries rest

end

mutual

/-- Embedding of `safe_serialize_tabledata` (source lines 49-75).
Branch order follows the source: `__dict__` owners first, then
iterables (for a dict, iteration yields its keys, which are strings, and
the recursive call on a string returns it unchanged, so that branch is
written as the direct key-to-atom map), then the `json.dumps` try with
the `str` fallback. -/
def safe_serialize_tabledata : PyVal → PyVal
  | .obj cls fields => .pyDict (("_type", .atom cls) :: serializeFields fields)
  | .pyList l => .pyList (serializeItems l)
  | .pyDict e => .pyList (e.map (fun kv => PyVal.atom kv.1))
  | .atom s => .atom s
  | .raw s => .atom s

/-- The per-attribute loop of `safe_serialize_tabledata` (source lines
53-65): keys starting with an underscore are skipped; a serializable
value is kept; otherwise a `__dict__` owner is recursed into (the
recursive call on an `obj` value is unfolded one step so the recursion is
structurally decreasing; `serializeFields_obj_step` below records that
the unfolding equals the top-level function), an iterable is mapped
element-wise, and anything else is replaced by its `str`. -/
def serializeFields : List (String × PyVal) → List (String × PyVal)
  | [] => []
  | (k, v) :: rest =>
    if k.startsWith "_" then serializeFields rest
    else
      (k,
        if jsonSerializable v then v
        else
          match v with
          | .obj c fs => PyVal.pyDict (("_type", PyVal.atom c) :: serializeFields fs)
          | .pyList l => PyVal.pyList (serializeItems l)
          | .pyDict e => PyVal.pyList (e.map (fun kv => PyVal.atom kv.1))
          | .atom s => PyVal.atom (strOf (PyVal.atom s))
          | .raw s => PyVal.atom (strOf (PyVal.raw s))) :: serializeFields rest

/-- Element-wise recursion of `safe_serialize_tabledata` over an
iterable. -/
def serializeItems : List PyVal → List PyVal
  | [] => []
  | x :: xs => safe_serialize_tabledata x :: serializeItems xs

end

/-- The one-step unfolding inside `serializeFields` agrees with the
top-level `safe_serialize_tabledata` on `__dict__` owners. -/
theorem serializeFields_obj_step (c : String) (fs : List (String × PyVal)) :
    safe_serialize_tabledata (.obj c fs)
      = .pyDict (("_type", .atom c) :: serializeFields fs) := by
  simp [safe_serialize_tabledata]

/-- Mapping dict keys to atoms always yields a serializable list. -/
theorem jsonSerializableList_keyAtoms (e : List (String × PyVal)) :
    jsonSerializableList (e.map (fun kv => PyVal.atom kv.1)) = true := by
  induction e with
  | nil => simp [jsonSerializableList]
  | cons kv rest ih => simp [jsonSerializableList, jsonSerializable, ih]

mutual

/-- The output of `safe_serialize_tabledata` always passes
`json.dumps`. -/
theorem serializeOkAux : (v : PyVal) → jsonSerializable (safe_serialize_tabledata v) = true
  | .atom s => by simp [safe_serialize_tabledata, jsonSerializable]
  | .raw s => by simp [safe_serialize_tabledata, jsonSerializable]
  | .pyList l => by
      simp only [safe_serialize_tabledata, jsonSerializable]
      exact serializeItemsOkAux l
  | .pyDict e => by
      simp only [safe_serialize_tabledata, jsonSerializable]
      exact jsonSerializableList_keyAtoms e
  | .obj c fs => by
      simp only [safe_serialize_tabledata]
      simp [jsonSerializable, jsonSerializableEntries, serializeFieldsOkAux fs]

/-- The attribute loop only emits serializable values. -/
theorem serializeFieldsOkAux : (l : List (String × PyVal)) →
    jsonSerializableEntries (serializeFields l) = true
  | [] => by simp [serializeFields, jsonSerializableEntries]
  | (k, v) :: rest => by
      cases v with
      | atom s =>
        by_cases hk : k.startsWith "_" <;>
          simp [serializeFields, hk, jsonSerializableEntries, jsonSerializable,
            serializeFieldsOkAux rest]
      | raw s =>
        by_cases hk : k.startsWith "_" <;>
          simp [serializeFields, hk, jsonSerializableEntries, jsonSerializable,
            serializeFieldsOkAux rest]
      | pyList l =>
        by_cases hk : k.startsWith "_"
        · simp [serializeFields, hk, serializeFieldsOkAux rest]
        · by_cases hv : jsonSerializable (PyVal.pyList l)
          · simp [serializeFields, hk, hv, jsonSerializableEntries,
              serializeFieldsOkAux rest]
          · have hv' : jsonSerializableList l = false := by
              revert hv; simp [jsonSerializable]
            simp [serializeFields, hk, hv', jsonSerializableEntries, jsonSerializable,
              serializeItemsOkAux l, serializeFieldsOkAux rest]
      | pyDict e =>
        by_cases hk : k.startsWith "_"
        · simp [serializeFields, hk, serializeFieldsOkAux rest]
        · by_cases hv : jsonSerializable (PyVal.pyDict e)
          · simp [serializeFields, hk, hv, jsonSerializableEntries,
              serializeFieldsOkAux rest]
          · have hv' : jsonSerializableEntries e = false := by
              revert hv; simp [jsonSerializable]
            simp [serializeFields, hk, hv', jsonSerializableEntries, jsonSerializable,
              jsonSerializableList_keyAtoms e, serializeFieldsOkAux rest]
      | obj c fs =>
        by_cases hk : k.startsWith "_" <;>
          simp [serializeFields, hk, jsonSerializable, jsonSerializableEntries,
            serializeFieldsOkAux fs, serializeFieldsOkAux rest]

/-- The element-wise recursion only emits serializable values. -/
theorem serializeItemsOkAux : (l : List PyVal) →
    jsonSerializableList (serializeItems l) = true
  | [] => by simp [serializeItems, jsonSerializableList]
  | x :: xs => by
      simp only [serializeItems, jsonSerializableList, Bool.and_eq_true]
      exact ⟨serializeOkAux x, serializeItemsOkAux xs⟩

end

/-- C10: for every acyclic input object, `safe_serialize_tabledata`
returns a value built only from JSON-serializable primitives, strings,
lists and string-keyed dicts, so handing it to `json.dump` as the
`default` hook never fails. -/
theorem c10_safe_serialize_always_serializable (v : PyVal) :
    jsonSerializable (safe_serialize_tabledata v) = true :=
  serializeOkAux v

/-- Python `pathlib` suffix of a file name: the part from the last dot,
empty when the name has no dot, starts with its only dot, or ends with
the dot. -/
def pySuffix (name : String) : String :=
  let cs := name.toList
  match cs.reverse.findIdx? (fun c => c = '.') with
  | none => ""
  | some j =>
    let i := cs.length - 1 - j
    if 0 < i ∧ i + 1 < cs.length then String.mk (cs.drop i) else ""

/-- Final path component of a slash-separated path. -/
def pyBaseName (p : String) : String :=
  (p.splitOn "/").getLastD p

/-- Python `Path(p).stem`: the final component without its suffix. -/
def pyStem (p : String) : String :=
  let b := pyBaseName p
  b.dropRight (pySuffix b).length

/-- Rendering of `Path(dir) / name` back to a string. -/
def pathJoin (dir name : String) : String :=
  dir ++ "/" ++ name

/-- Python `"\n".join(lines)`. -/
def joinLines : List String → String
  | [] => ""
  | [a] => a
  | a :: b :: rest => a ++ "\n" ++ joinLines (b :: rest)

/-- Python `", ".join(items)`. -/
def joinComma : List String → String
  | [] => ""
  | [a] => a
  | a :: b :: rest => a ++ ", " ++ joinComma (b :: rest)

/-- Fields of `DoclingConfig` read by the modelled operations (the
remaining fields of the source record - paths, worker count, OCR
languages and confidence threshold, formula/layout toggles, timeout -
are never read by the code under verification and are omitted). -/
structure DoclingConfig where
  use_gpu : Bool := true
  max_workers : Nat := 4
  enable_ocr_by_default : Bool := false
  extract_tables : Bool := true
  extract_images : Bool := true
  processing_timeout : Nat := 3600
  max_file_size_mb : Nat := 500
deriving DecidableEq

/-- Pipeline options handed to the external converter constructor. -/
structure PdfPipelineOptions where
  do_ocr : Bool
  do_table_structure : Bool
  generate_page_images : Bool
deriving DecidableEq

/-- A constructed converter handle, characterised by its pipeline
options. -/
structure Converter where
  pipeline : PdfPipelineOptions
deriving DecidableEq

/-- The handle built by `_initialize_base_converter`: OCR off. -/
def baseConverter (cfg : DoclingConfig) : Converter :=
  ⟨⟨false, cfg.extract_tables, cfg.extract_images⟩⟩

/-- The handle built by `_initialize_ocr_converter`: OCR on. -/
def ocrConverter (cfg : DoclingConfig) : Converter :=
  ⟨⟨true, cfg.extract_tables, cfg.extract_images⟩⟩

/-- Mutable attributes of a `DoclingProcessor` instance. -/
structure ProcState where
  converter : Option Converter
  chunker : Bool
  ocrInitialized : Bool
deriving DecidableEq

/-- A section object on the external document: each attribute may be
missing (`none`), in which case the `getattr` default applies. -/
structure PySection where
  title : Option String
  text : Option String
  level : Option Int
  page : Option Int
deriving DecidableEq

/-- A table object on the external document. `dataAttr` is `some` when
the object has a `data` attribute; `strRep` is its `str`. -/
structure PyTable where
  page : Option Int
  bbox : Option String
  dataAttr : Option PyVal
  rows : Option Int
  cols : Option Int
  strRep : String

/-- An image object on the external document; `hasData` records whether
it has a `data` attribute. -/
structure PyImage where
  page : Option Int
  bbox : Option String
  format : Option String
  hasData : Bool
deriving DecidableEq

/-- The external document object returned by the conversion engine.
`pages` is `some n` when the object has a `pages` attribute of length
`n` (only the length is read). `exportMarkdownResult` is what its
Markdown-rendering method returns. -/
structure DoclingDoc where
  title : Option String
  text : Option String
  exportMarkdownResult : String
  pages : Option Nat
  sections : Option (List PySection)
  tables : Option (List PyTable)
  images : Option (List PyImage)

/-- Result of `_extract_table_content`: either the `data`-attribute
record or the string-representation fallback (within the model attribute
reads are total, so the error branch of the source is unreachable). -/
inductive TableContent where
  | dataTable (data : PyVal) (rows cols : Int)
  | strTable (content : String)

/-- Embedding of `_extract_table_content` (source lines 410-428). -/
def extractTableContent (t : PyTable) : TableContent :=
  match t.dataAttr with
  | some d => .dataTable d (t.rows.getD 0) (t.cols.getD 0)
  | none => .strTable t.strRep

/-- A section entry of the returned `DocumentStructure`. -/
structure SectionRec where
  id : Nat
  title : String
  content : String
  level : Int
  page : Int
deriving DecidableEq

/-- A table entry of the returned `DocumentStructure`; `file_path` is
`none` when the `file_path` key is absent. -/
structure TableEntry where
  id : Nat
  page : Int
  content : TableContent
  bbox : Option String
  file_path : Option String

/-- An image entry of the returned `DocumentStructure`. -/
structure ImageEntry where
  id : Nat
  page : Int
  bbox : Option String
  format : String
  file_path : Option String
deriving DecidableEq

/-- Content of a file written during processing: the JSON dump of a
table entry (with `safe_serialize_tabledata` as the `default` hook), or
plain text for the Markdown export. -/
inductive WriteContent where
  | jsonTable (t : TableEntry)
  | textFile (s : String)

/-- One file written to disk. -/
structure FileWrite where
  path : String
  content : WriteContent

/-- The `metadata` dict of a returned `DocumentStructure`. -/
structure DocMetadata where
  original_file : String
  total_pages : Nat
  sections_count : Nat
  tables_count : Nat
  images_count : Nat
  chunks_count : Nat
  has_ocr_content : Bool
  extraction_method : String
  content_length : Nat
deriving DecidableEq

/-- The `processing_stats` dict attached by `process_document`. -/
structure DocProcessingStats where
  processing_time_seconds : Nat
  file_size_bytes : Nat
  ocr_used : Bool
  ocr_languages : Option String
  docling_version : String
  timestamp : String
deriving DecidableEq

/-- The normalized output record (`DocumentStructure`, source lines
109-122). `metadata` and `processing_stats` are `none` for the pydantic
default empty dicts. -/
structure DocumentStructure where
  title : String
  authors : List String
  sections : List SectionRec
  tables : List TableEntry
  images : List ImageEntry
  formulas : List Unit
  metadata : Option DocMetadata
  raw_text : String
  markdown_content : String
  processing_stats : Option DocProcessingStats

/-- External behavior surrounding one `process_document` call: filesystem
probes for the input file, whether each converter constructor raises
(`some msg` carries the exception text), the outcome of the external
conversion, the chunker outcome (`some n` chunks, `none` for a raise that
is caught and logged), and clock readings. -/
structure ProcEnv where
  fileExists : Bool
  fileSize : Nat
  ocrInitError : Option String
  baseInitError : Option String
  convertResult : Except String DoclingDoc
  chunkResult : Option Nat
  processingTime : Nat
  timestamp : String

/-- Python exceptions surfacing from the modelled methods. -/
inductive PyErr where
  | fileNotFound (msg : String)
  | valueError (msg : String)
  | initFailure (msg : String)
  | convFailure (msg : String)
deriving DecidableEq

/-- Embedding of `_initialize_base_converter` (source lines 146-168): on
constructor success the handle is replaced by the base (OCR-off)
converter; on failure the exception propagates and the handle is left
unchanged. Note that `ocr_initialized` is not touched here, exactly as in
the source. -/
def initBaseConverter (cfg : DoclingConfig) (env : ProcEnv) (st : ProcState) :
    ProcState × Option PyErr :=
  match env.baseInitError with
  | some m => (st, some (.initFailure m))
  | none => ({ st with converter := some (baseConverter cfg) }, none)

/-- Embedding of `_initialize_ocr_converter` (source lines 170-195): on
success the handle becomes the OCR converter and `ocr_initialized` is set;
on constructor failure the except-block reruns the base initializer (the
fallback) and then re-raises the original error - unless the fallback
itself raises, in which case that exception propagates instead. -/
def initOcrConverter (cfg : DoclingConfig) (env : ProcEnv) (st : ProcState)
    (_ocrLanguages : String) : ProcState × Option PyErr :=
  match env.ocrInitError with
  | none => ({ st with converter := some (ocrConverter cfg), ocrInitialized := true }, none)
  | some m =>
    match initBaseConverter cfg env st with
    | (st1, some m2) => (st1, some m2)
    | (st1, none) => (st1, some (.initFailure m))

/-- Embedding of `DoclingProcessor.__init__` (source lines 131-144):
fresh state with no chunker, OCR flag clear, and the base converter
built (construction failure propagates out of the constructor). -/
def initProcessor (cfg : DoclingConfig) (env : ProcEnv) : Except PyErr ProcState :=
  match initBaseConverter cfg env { converter := none, chunker := false, ocrInitialized := false } with
  | (st1, none) => .ok st1
  | (_, some e) => .error e

/-- The conditional converter (re)initialization block of
`process_document` (source lines 259-265). Returns the new state, the
error if one was raised, and how many times the base and OCR converter
constructors ran. -/
def checkedInit (cfg : DoclingConfig) (env : ProcEnv) (st : ProcState)
    (useOcr : Bool) (ocrLanguages : String) : ProcState × Option PyErr × Nat × Nat :=
  if useOcr && !st.ocrInitialized then
    match initOcrConverter cfg env st ocrLanguages with
    | (st1, e) => (st1, e, (if env.ocrInitError.isSome then 1 else 0), 1)
  else if !useOcr && st.ocrInitialized then
    match initBaseConverter cfg env st with
    | (st1, e) => (st1, e, 1, 0)
  else
    (st, none, 0, 0)

/-- Embedding of the section loop (source lines 318-328) with the
`getattr` defaults. -/
def extractSections : Option (List PySection) → List SectionRec
  | none => []
  | some ss =>
    ss.enum.map (fun is' =>
      { id := is'.1,
        title := is'.2.title.getD ("Section " ++ toString (is'.1 + 1)),
        content := is'.2.text.getD "",
        level := is'.2.level.getD 1,
        page := is'.2.page.getD 1 })

/-- Path of the side file for table `i`. -/
def tableFilePath (outputDir : String) (i : Nat) : String :=
  pathJoin outputDir ("table_" ++ toString i ++ ".json")

/-- Path recorded for image `i`. -/
def imageFilePath (outputDir : String) (i : Nat) : String :=
  pathJoin outputDir ("image_" ++ toString i ++ ".png")

/-- Embedding of the table loop (source lines 330-347): every table is
dumped to `table_<i>.json` in the output directory (the dump happens
before the `file_path` key is added, so the written record carries no
path), then the entry - now holding the path - is appended. -/
def extractTables (outputDir : String) : Option (List PyTable) →
    List TableEntry × List FileWrite
  | none => ([], [])
  | some ts =>
    (ts.enum.map (fun it =>
      { id := it.1,
        page := it.2.page.getD 1,
        content := extractTableContent it.2,
        bbox := it.2.bbox,
        file_path := some (tableFilePath outputDir it.1) }),
     ts.enum.map (fun it =>
      { path := tableFilePath outputDir it.1,
        content := .jsonTable
          { id := it.1,
            page := it.2.page.getD 1,
            content := extractTableContent it.2,
            bbox := it.2.bbox,
            file_path := none } }))

/-- Embedding of the image loop (source lines 349-366): when the image
object has a `data` attribute the entry records the `image_<i>.png`
path, but no file is ever written - the saving logic is an unimplemented
placeholder in the source. -/
def extractImages (outputDir : String) : Option (List PyImage) → List ImageEntry
  | none => []
  | some is' =>
    is'.enum.map (fun ii =>
      { id := ii.1,
        page := ii.2.page.getD 1,
        bbox := ii.2.bbox,
        format := ii.2.format.getD "unknown",
        file_path := if ii.2.hasData then some (imageFilePath outputDir ii.1) else none })

/-- The chunking step (source lines 368-375): runs only when a chunker is
available and the Markdown content is truthy; a chunking failure is
caught and leaves zero chunks. -/
def chunksCountOf (chunker : Bool) (markdown : String) (chunkResult : Option Nat) : Nat :=
  if chunker && !(markdown == "") then
    match chunkResult with
    | some n => n
    | none => 0
  else 0

/-- Embedding of `_extract_document_structure` (source lines 296-408):
defensive field extraction, side-file writes for tables, and assembly of
the normalized record (`processing_stats` is attached later by
`process_document`). -/
def extractDocumentStructure (st : ProcState) (chunkResult : Option Nat)
    (doc : DoclingDoc) (originalFilePath outputDir : String) :
    DocumentStructure × List FileWrite :=
  let title0 := doc.title.getD ""
  let title := if title0 == "" then pyStem originalFilePath else title0
  let markdown := doc.exportMarkdownResult
  let raw0 := doc.text.getD ""
  let rawText := if raw0 == "" then markdown else raw0
  let totalPages := match doc.pages with | some n => n | none => 1
  let sections := extractSections doc.sections
  let tablesAndWrites := extractTables outputDir doc.tables
  let images := extractImages outputDir doc.images
  let chunksCount := chunksCountOf st.chunker markdown chunkResult
  ({ title := title,
     authors := [],
     sections := sections,
     tables := tablesAndWrites.1,
     images := images,
     formulas := [],
     metadata := some
       { original_file := originalFilePath,
         total_pages := totalPages,
         sections_count := sections.length,
         tables_count := tablesAndWrites.1.length,
         images_count := images.length,
         chunks_count := chunksCount,
         has_ocr_content := st.ocrInitialized,
         extraction_method := "docling_v2",
         content_length := rawText.length },
     raw_text := rawText,
     markdown_content := markdown,
     processing_stats := none },
   tablesAndWrites.2)

/-- Everything observable about one `process_document` call: its return
value or exception, the processor state afterwards, the files written,
and how often the conversion engine and each converter constructor were
invoked. -/
structure ProcOutcome where
  result : Except PyErr DocumentStructure
  state : ProcState
  writes : List FileWrite
  convertCalls : Nat
  baseInits : Nat
  ocrInits : Nat

/-- The `processing_stats` block attached on success (source lines
278-286). -/
def statsFor (env : ProcEnv) (useOcr : Bool) (ocrLanguages : String) : DocProcessingStats :=
  { processing_time_seconds := env.processingTime,
    file_size_bytes := env.fileSize,
    ocr_used := useOcr,
    ocr_languages := if useOcr then some ocrLanguages else none,
    docling_version := "2.0+",
    timestamp := env.timestamp }

/-- Embedding of `DoclingProcessor.process_document` (source lines
223-294): existence check, size-ceiling check, conditional converter
(re)initialization, delegation to the external engine, structure
extraction, and attachment of the processing statistics. Every raised
exception is logged and re-raised, which the model renders as the
`.error` results. -/
def processDocument (cfg : DoclingConfig) (env : ProcEnv) (st : ProcState)
    (filePath outputDir : String) (useOcr : Bool) (ocrLanguages : String) : ProcOutcome :=
  if env.fileExists = false then
    { result := .error (.fileNotFound ("File not found: " ++ filePath)),
      state := st, writes := [], convertCalls := 0, baseInits := 0, ocrInits := 0 }
  else
    let maxSize := cfg.max_file_size_mb * 1024 * 1024
    if env.fileSize > maxSize then
      { result := .error (.valueError ("File too large: " ++ toString env.fileSize
          ++ " bytes (max: " ++ toString maxSize ++ ")")),
        state := st, writes := [], convertCalls := 0, baseInits := 0, ocrInits := 0 }
    else
      match checkedInit cfg env st useOcr ocrLanguages with
      | (st1, some e, b, o) =>
        { result := .error e, state := st1, writes := [],
          convertCalls := 0, baseInits := b, ocrInits := o }
      | (st1, none, b, o) =>
        match env.convertResult with
        | .error m =>
          { result := .error (.convFailure m), state := st1, writes := [],
            convertCalls := 1, baseInits := b, ocrInits := o }
        | .ok doc =>
          let extracted := extractDocumentStructure st1 env.chunkResult doc filePath outputDir
          { result := .ok { extracted.1 with
              processing_stats := some (statsFor env useOcr ocrLanguages) },
            state := st1, writes := extracted.2,
            convertCalls := 1, baseInits := b, ocrInits := o }

/-- Number signs for a section heading (source line 470):
`"#" * min(level + 1, 6)`; a non-positive count yields the empty
string, as in Python. -/
def headingHashes (level : Int) : String :=
  String.mk (List.replicate (min (level + 1) 6).toNat '#')

/-- The table lines of the fallback Markdown (source lines 475-481);
`Data file:` is emitted only for a truthy (present and non-empty)
`file_path`. -/
def tableLines (ts : List TableEntry) : List String :=
  (ts.enum.map (fun it =>
    ("### Table " ++ toString (it.1 + 1) ++ "\n") ::
    ("Page: " ++ toString it.2.page ++ "\n") ::
    (match it.2.file_path with
     | some p => if p == "" then [] else ["Data file: " ++ p ++ "\n"]
     | none => []))).flatten

/-- The line list assembled by `_create_markdown_from_structure`
(source lines 456-483). -/
def mdLines (ds : DocumentStructure) : List String :=
  (if ds.title == "" then [] else ["# " ++ ds.title ++ "\n"]) ++
  (if ds.authors.isEmpty then []
   else ["**Authors:** " ++ joinComma ds.authors ++ "\n"]) ++
  (ds.sections.map (fun s =>
    [headingHashes s.level ++ " " ++ s.title ++ "\n", s.content ++ "\n"])).flatten ++
  (if ds.tables.isEmpty then [] else "## Tables\n" :: tableLines ds.tables)

/-- Embedding of `_create_markdown_from_structure` (source lines
456-483). -/
def createMarkdownFromStructure (ds : DocumentStructure) : String :=
  joinLines (mdLines ds)

/-- Embedding of `export_to_markdown` (source lines 430-454): use the
pre-rendered Markdown when truthy, otherwise synthesize the fallback;
write the file; return the content. -/
def export_to_markdown (ds : DocumentStructure) (outputFile : String) :
    String × List FileWrite :=
  let content := if ds.markdown_content == ""
    then createMarkdownFromStructure ds
    else ds.markdown_content
  (content, [{ path := outputFile, content := .textFile content }])

/-- One directory entry as seen by `Path(output_dir).glob("*")`;
`unlinkError` is `some msg` when `unlink` on it raises (for instance
because the entry is a subdirectory). -/
structure DirEntry where
  name : String
  unlinkError : Option String
deriving DecidableEq

/-- A directory: whether the path exists, and its entries in glob
order. -/
structure DirState where
  dirExists : Bool
  entries : List DirEntry
deriving DecidableEq

/-- The keep-extensions of `cleanup_temp_files`. -/
def keepSuffixes : List String := [".md", ".json"]

/-- The deletion loop of `cleanup_temp_files` (source lines 490-493),
including the effect of the surrounding try-block: an `unlink` failure
aborts the loop, leaving the failing entry and all later ones in place;
the second component is the exception text it raised, if any. -/
def cleanupLoop (keepMainFiles : Bool) : List DirEntry → List DirEntry × Option String
  | [] => ([], none)
  | e :: rest =>
    if keepMainFiles && keepSuffixes.contains (pySuffix e.name) then
      match cleanupLoop keepMainFiles rest with
      | (kept, err) => (e :: kept, err)
    else
      match e.unlinkError with
      | some m => (e :: rest, some m)
      | none => cleanupLoop keepMainFiles rest

/-- Embedding of `cleanup_temp_files` (source lines 485-496): a missing
directory is left alone; otherwise the deletion loop runs; any exception
is caught and only logged (the second component), so the method always
returns normally. -/
def cleanup_temp_files (d : DirState) (keepMainFiles : Bool) : DirState × Option String :=
  if d.dirExists then
    match cleanupLoop keepMainFiles d.entries with
    | (kept, err) => ({ d with entries := kept }, err)
  else (d, none)

/-- Default configuration (the source defaults). -/
def cfg0 : DoclingConfig := {}

/-- Environment of a small, failure-free call returning `doc`. -/
def happyEnv (doc : DoclingDoc) : ProcEnv :=
  { fileExists := true, fileSize := 10, ocrInitError := none, baseInitError := none,
    convertResult := .ok doc, chunkResult := none, processingTime := 2,
    timestamp := "2026-01-01T00:00:00" }

/-- A minimal external document: no optional attribute present. -/
def trivialDoc : DoclingDoc :=
  { title := none, text := none, exportMarkdownResult := "hello", pages := none,
    sections := none, tables := none, images := none }

/-- Processor state right after a successful `__init__`. -/
def startState : ProcState :=
  { converter := some (baseConverter cfg0), chunker := false, ocrInitialized := false }

/-- The constructor model really produces `startState`. -/
theorem initProcessor_startState :
    initProcessor cfg0 (happyEnv trivialDoc) = .ok startState := rfl

/-- C1: the spec demands that toggling `use_ocr` across consecutive calls
rebuilds the handle once per toggle, the handle mode afterwards matching
the call's `use_ocr`. The code violates this: `_initialize_base_converter`
never clears `ocr_initialized`, so after OCR-on then OCR-off, a third call
with `use_ocr = True` performs no rebuild at all and converts with the
OCR-off base handle (while its processing stats still claim
`ocr_used = True`). This theorem evaluates the model on that three-call
sequence. -/
theorem c1_stale_ocr_flag_skips_rebuild :
    (processDocument cfg0 (happyEnv trivialDoc) startState
        "/in/doc.pdf" "/out" true "eng").ocrInits = 1 ∧
    (processDocument cfg0 (happyEnv trivialDoc) startState
        "/in/doc.pdf" "/out" true "eng").state.converter = some (ocrConverter cfg0) ∧
    (processDocument cfg0 (happyEnv trivialDoc)
        (processDocument cfg0 (happyEnv trivialDoc) startState
          "/in/doc.pdf" "/out" true "eng").state
        "/in/doc.pdf" "/out" false "eng").baseInits = 1 ∧
    (processDocument cfg0 (happyEnv trivialDoc)
        (processDocument cfg0 (happyEnv trivialDoc) startState
          "/in/doc.pdf" "/out" true "eng").state
        "/in/doc.pdf" "/out" false "eng").state =
      { converter := some (baseConverter cfg0), chunker := false, ocrInitialized := true } ∧
    (processDocument cfg0 (happyEnv trivialDoc)
        { converter := some (baseConverter cfg0), chunker := false, ocrInitialized := true }
        "/in/doc.pdf" "/out" true "eng").ocrInits = 0 ∧
    (processDocument cfg0 (happyEnv trivialDoc)
        { converter := some (baseConverter cfg0), chunker := false, ocrInitialized := true }
        "/in/doc.pdf" "/out" true "eng").baseInits = 0 ∧
    (processDocument cfg0 (happyEnv trivialDoc)
        { converter := some (baseConverter cfg0), chunker := false, ocrInitialized := true }
        "/in/doc.pdf" "/out" true "eng").state.converter = some (baseConverter cfg0) ∧
    (processDocument cfg0 (happyEnv trivialDoc)
        { converter := some (baseConverter cfg0), chunker := false, ocrInitialized := true }
        "/in/doc.pdf" "/out" true "eng").result.toOption.isSome = true := by
  refine ⟨rfl, rfl, rfl, rfl, rfl, rfl, rfl, rfl⟩

/-- External document exposing exactly one image, which carries a `data`
attribute. -/
def imgDoc : DoclingDoc :=
  { trivialDoc with
    images := some [{ page := none, bbox := none, format := none, hasData := true }] }

/-- C2: the spec demands every image be serialized to a side file in the
output directory that the image entry references by path. The code
violates this: the entry records `image_0.png` because the image has a
`data` attribute, yet no file is written (the source's saving step is an
unimplemented placeholder), so the recorded path is dangling. This
theorem evaluates the model on a document with one such image. -/
theorem c2_image_path_recorded_but_file_never_written :
    (∃ ds, (processDocument cfg0 (happyEnv imgDoc) startState
        "/in/doc.pdf" "/out" false "eng").result = .ok ds ∧
      ds.images = [{ id := 0, page := 1, bbox := none, format := "unknown",
                     file_path := some "/out/image_0.png" }]) ∧
    (processDocument cfg0 (happyEnv imgDoc) startState
        "/in/doc.pdf" "/out" false "eng").writes = [] := by
  exact ⟨⟨_, rfl, rfl⟩, rfl⟩

/-- C3: for an existing file whose size exceeds
`max_file_size_mb * 1024 * 1024`, `process_document` raises the
size-exceeded `ValueError` and the external conversion engine is never
invoked (nothing is written, the processor state is untouched, and no
converter constructor runs either, since validation precedes all of
them). -/
theorem c3_size_exceeded_blocks_conversion (cfg : DoclingConfig) (env : ProcEnv)
    (st : ProcState) (filePath outputDir ocrLanguages : String) (useOcr : Bool)
    (hex : env.fileExists = true)
    (hsz : env.fileSize > cfg.max_file_size_mb * 1024 * 1024) :
    (processDocument cfg env st filePath outputDir useOcr ocrLanguages).result =
      .error (.valueError ("File too large: " ++ toString env.fileSize
        ++ " bytes (max: " ++ toString (cfg.max_file_size_mb * 1024 * 1024) ++ ")")) ∧
    (processDocument cfg env st filePath outputDir useOcr ocrLanguages).convertCalls = 0 ∧
    (processDocument cfg env st filePath outputDir useOcr ocrLanguages).writes = [] ∧
    (processDocument cfg env st filePath outputDir useOcr ocrLanguages).state = st ∧
    (processDocument cfg env st filePath outputDir useOcr ocrLanguages).baseInits = 0 ∧
    (processDocument cfg env st filePath outputDir useOcr ocrLanguages).ocrInits = 0 := by
  simp [processDocument, hex, hsz]

/-- Environment with a 600 MiB input file against the 500 MiB default
ceiling. -/
def bigEnv : ProcEnv :=
  { fileExists := true, fileSize := 600 * 1024 * 1024, ocrInitError := none,
    baseInitError := none, convertResult := .error "engine must not run",
    chunkResult := none, processingTime := 0, timestamp := "t" }

/-- Witness for C3 at a concrete oversized file. -/
theorem c3_size_exceeded_blocks_conversion_witness :
    bigEnv.fileExists = true ∧
    bigEnv.fileSize > cfg0.max_file_size_mb * 1024 * 1024 ∧
    ((processDocument cfg0 bigEnv startState "/in/big.pdf" "/out" false "eng").result =
      .error (.valueError ("File too large: " ++ toString bigEnv.fileSize
        ++ " bytes (max: " ++ toString (cfg0.max_file_size_mb * 1024 * 1024) ++ ")")) ∧
    (processDocument cfg0 bigEnv startState "/in/big.pdf" "/out" false "eng").convertCalls = 0 ∧
    (processDocument cfg0 bigEnv startState "/in/big.pdf" "/out" false "eng").writes = [] ∧
    (processDocument cfg0 bigEnv startState "/in/big.pdf" "/out" false "eng").state = startState ∧
    (processDocument cfg0 bigEnv startState "/in/big.pdf" "/out" false "eng").baseInits = 0 ∧
    (processDocument cfg0 bigEnv startState "/in/big.pdf" "/out" false "eng").ocrInits = 0) :=
  ⟨rfl, by decide,
   c3_size_exceeded_blocks_conversion cfg0 bigEnv startState "/in/big.pdf" "/out" "eng" false
     rfl (by decide)⟩

/-- C4: when construction of the OCR converter raises, the except-block
of `_initialize_ocr_converter` rebuilds the base (OCR-off) handle and
re-raises the original initialization error, which `process_document`
propagates to its caller; conversion never runs. -/
theorem c4_ocr_init_failure_falls_back_and_reraises (cfg : DoclingConfig) (env : ProcEnv)
    (st : ProcState) (filePath outputDir ocrLanguages m : String)
    (hex : env.fileExists = true)
    (hsz : ¬ env.fileSize > cfg.max_file_size_mb * 1024 * 1024)
    (hocr : env.ocrInitError = some m)
    (hbase : env.baseInitError = none)
    (hoi : st.ocrInitialized = false) :
    (processDocument cfg env st filePath outputDir true ocrLanguages).result =
      .error (.initFailure m) ∧
    (processDocument cfg env st filePath outputDir true ocrLanguages).state.converter =
      some (baseConverter cfg) ∧
    (processDocument cfg env st filePath outputDir true ocrLanguages).convertCalls = 0 := by
  simp [processDocument, hex, hsz, checkedInit, hoi, initOcrConverter, hocr,
    initBaseConverter, hbase]

/-- Environment in which building the OCR converter raises. -/
def ocrFailEnv : ProcEnv :=
  { fileExists := true, fileSize := 10, ocrInitError := some "no tesseract",
    baseInitError := none, convertResult := .error "engine must not run",
    chunkResult := none, processingTime := 0, timestamp := "t" }

/-- Witness for C4 at a concrete failing OCR initialization. -/
theorem c4_ocr_init_failure_falls_back_and_reraises_witness :
    ocrFailEnv.fileExists = true ∧
    ¬ ocrFailEnv.fileSize > cfg0.max_file_size_mb * 1024 * 1024 ∧
    ocrFailEnv.ocrInitError = some "no tesseract" ∧
    ocrFailEnv.baseInitError = none ∧
    startState.ocrInitialized = false ∧
    ((processDocument cfg0 ocrFailEnv startState "/in/doc.pdf" "/out" true "eng").result =
      .error (.initFailure "no tesseract") ∧
    (processDocument cfg0 ocrFailEnv startState "/in/doc.pdf" "/out" true "eng").state.converter =
      some (baseConverter cfg0) ∧
    (processDocument cfg0 ocrFailEnv startState "/in/doc.pdf" "/out" true "eng").convertCalls = 0) :=
  ⟨rfl, by decide, rfl, rfl, rfl,
   c4_ocr_init_failure_falls_back_and_reraises cfg0 ocrFailEnv startState
     "/in/doc.pdf" "/out" "eng" "no tesseract" rfl (by decide) rfl rfl rfl⟩

/-- Shape of every successful `process_document` call: the conversion
engine returned a document, and the result is the extracted structure
with the processing-stats block attached. -/
theorem processDocument_ok_shape (cfg : DoclingConfig) (env : ProcEnv) (st : ProcState)
    (filePath outputDir ocrLanguages : String) (useOcr : Bool) (ds : DocumentStructure)
    (h : (processDocument cfg env st filePath outputDir useOcr ocrLanguages).result = .ok ds) :
    ∃ doc, env.convertResult = .ok doc ∧
      ds = { (extractDocumentStructure
               (checkedInit cfg env st useOcr ocrLanguages).1
               env.chunkResult doc filePath outputDir).1 with
             processing_stats := some (statsFor env useOcr ocrLanguages) } := by
  rw [processDocument] at h
  by_cases h1 : env.fileExists = false
  · rw [if_pos h1] at h; simp at h
  · rw [if_neg h1] at h
    by_cases h2 : env.fileSize > cfg.max_file_size_mb * 1024 * 1024
    · rw [if_pos h2] at h; simp at h
    · rw [if_neg h2] at h
      rcases hc : checkedInit cfg env st useOcr ocrLanguages with ⟨st1, oe, b, o⟩
      rw [hc] at h
      cases oe with
      | some e => simp at h
      | none =>
        cases hr : env.convertResult with
        | error m => rw [hr] at h; simp at h
        | ok doc =>
          rw [hr] at h
          simp only [Except.ok.injEq] at h
          refine ⟨doc, rfl, ?_⟩
          exact h.symm

/-- The metadata assembled by `_extract_document_structure` is computed
from the very lists and text it returns. -/
theorem extract_metadata_spec (st : ProcState) (chunkResult : Option Nat)
    (doc : DoclingDoc) (filePath outputDir : String) :
    ∃ md, (extractDocumentStructure st chunkResult doc filePath outputDir).1.metadata = some md ∧
      md.content_length =
        (extractDocumentStructure st chunkResult doc filePath outputDir).1.raw_text.length ∧
      md.sections_count =
        (extractDocumentStructure st chunkResult doc filePath outputDir).1.sections.length ∧
      md.tables_count =
        (extractDocumentStructure st chunkResult doc filePath outputDir).1.tables.length ∧
      md.images_count =
        (extractDocumentStructure st chunkResult doc filePath outputDir).1.images.length ∧
      md.total_pages = (match doc.pages with | some n => n | none => 1) :=
  ⟨_, rfl, rfl, rfl, rfl, rfl, rfl⟩

/-- C5: every structure returned by a successful `process_document` call
satisfies `metadata.content_length = len(raw_text)` for its own
`raw_text` field. -/
theorem c5_content_length_matches_raw_text (cfg : DoclingConfig) (env : ProcEnv)
    (st : ProcState) (filePath outputDir ocrLanguages : String) (useOcr : Bool)
    (ds : DocumentStructure)
    (h : (processDocument cfg env st filePath outputDir useOcr ocrLanguages).result = .ok ds) :
    ∃ md, ds.metadata = some md ∧ md.content_length = ds.raw_text.length := by
  obtain ⟨doc, _, hds⟩ :=
    processDocument_ok_shape cfg env st filePath outputDir ocrLanguages useOcr ds h
  subst hds
  obtain ⟨md, hm, hlen, -, -, -, -⟩ :=
    extract_metadata_spec (checkedInit cfg env st useOcr ocrLanguages).1
      env.chunkResult doc filePath outputDir
  exact ⟨md, hm, hlen⟩

/-- Witness for C5 on a concrete successful call. -/
theorem c5_content_length_matches_raw_text_witness :
    ∃ ds, (processDocument cfg0 (happyEnv trivialDoc) startState
        "/in/doc.pdf" "/out" false "eng").result = .ok ds ∧
      ∃ md, ds.metadata = some md ∧ md.content_length = ds.raw_text.length :=
  ⟨_, rfl,
   c5_content_length_matches_raw_text cfg0 (happyEnv trivialDoc) startState
     "/in/doc.pdf" "/out" "eng" false _ rfl⟩

/-- External document exposing an empty `pages` collection. -/
def zeroPagesDoc : DoclingDoc := { trivialDoc with pages := some 0 }

/-- C8 counterexample: a successful call on a document whose `pages`
attribute is an empty collection yields `metadata.total_pages = 0`,
refuting the claimed invariant `total_pages >= 1`. -/
theorem c8_counterexample_zero_pages :
    ∃ ds md, (processDocument cfg0 (happyEnv zeroPagesDoc) startState
        "/in/doc.pdf" "/out" false "eng").result = .ok ds ∧
      ds.metadata = some md ∧ md.total_pages = 0 :=
  ⟨_, _, rfl, rfl, rfl⟩

/-- C8 (amended): on every successful `process_document` call the
returned metadata counts equal the lengths of the structure's own lists,
and `total_pages` is the length of the document's `pages` collection
when that attribute exists and 1 otherwise - so `total_pages >= 1` holds
except when the document exposes an empty `pages` collection. -/
theorem c8_metadata_counts_consistent (cfg : DoclingConfig) (env : ProcEnv)
    (st : ProcState) (filePath outputDir ocrLanguages : String) (useOcr : Bool)
    (ds : DocumentStructure) (doc : DoclingDoc)
    (hconv : env.convertResult = .ok doc)
    (h : (processDocument cfg env st filePath outputDir useOcr ocrLanguages).result = .ok ds) :
    ∃ md, ds.metadata = some md ∧
      md.sections_count = ds.sections.length ∧
      md.tables_count = ds.tables.length ∧
      md.images_count = ds.images.length ∧
      md.total_pages = (match doc.pages with | some n => n | none => 1) ∧
      (doc.pages = none ∨ 1 ≤ (doc.pages.getD 1) → 1 ≤ md.total_pages) := by
  obtain ⟨doc', hdoc', hds⟩ :=
    processDocument_ok_shape cfg env st filePath outputDir ocrLanguages useOcr ds h
  rw [hconv] at hdoc'
  injection hdoc' with hd
  subst hd
  subst hds
  obtain ⟨md, hm, -, hs, ht, hi, hp⟩ :=
    extract_metadata_spec (checkedInit cfg env st useOcr ocrLanguages).1
      env.chunkResult doc filePath outputDir
  refine ⟨md, hm, hs, ht, hi, hp, ?_⟩
  intro hcase
  rw [hp]
  cases hpp : doc.pages with
  | none => simp
  | some n =>
    rcases hcase with hnone | hpos
    · rw [hpp] at hnone; cases hnone
    · rw [hpp] at hpos; simpa using hpos

/-- Witness for C8 (amended) on a concrete successful call. -/
theorem c8_metadata_counts_consistent_witness :
    ∃ ds, (processDocument cfg0 (happyEnv trivialDoc) startState
        "/in/doc.pdf" "/out" false "eng").result = .ok ds ∧
      ∃ md, ds.metadata = some md ∧
        md.sections_count = ds.sections.length ∧
        md.tables_count = ds.tables.length ∧
        md.images_count = ds.images.length ∧
        md.total_pages = (match trivialDoc.pages with | some n => n | none => 1) ∧
        (trivialDoc.pages = none ∨ 1 ≤ (trivialDoc.pages.getD 1) → 1 ≤ md.total_pages) :=
  ⟨_, rfl,
   c8_metadata_counts_consistent cfg0 (happyEnv trivialDoc) startState
     "/in/doc.pdf" "/out" "eng" false _ trivialDoc rfl rfl⟩

/-- C9: on every successful call with `use_ocr = False`, the attached
processing stats report `ocr_used = False` and `ocr_languages = None`,
whatever languages string the caller passed. -/
theorem c9_stats_no_ocr_when_disabled (cfg : DoclingConfig) (env : ProcEnv)
    (st : ProcState) (filePath outputDir ocrLanguages : String)
    (ds : DocumentStructure)
    (h : (processDocument cfg env st filePath outputDir false ocrLanguages).result = .ok ds) :
    ∃ stats, ds.processing_stats = some stats ∧
      stats.ocr_used = false ∧ stats.ocr_languages = none := by
  obtain ⟨doc, -, hds⟩ :=
    processDocument_ok_shape cfg env st filePath outputDir ocrLanguages false ds h
  subst hds
  exact ⟨statsFor env false ocrLanguages, rfl, rfl, rfl⟩

/-- Witness for C9 on a concrete successful call passing a languages
string. -/
theorem c9_stats_no_ocr_when_disabled_witness :
    ∃ ds, (processDocument cfg0 (happyEnv trivialDoc) startState
        "/in/doc.pdf" "/out" false "rus").result = .ok ds ∧
      ∃ stats, ds.processing_stats = some stats ∧
        stats.ocr_used = false ∧ stats.ocr_languages = none :=
  ⟨_, rfl,
   c9_stats_no_ocr_when_disabled cfg0 (happyEnv trivialDoc) startState
     "/in/doc.pdf" "/out" "rus" _ rfl⟩

/-- Joining a non-empty line list keeps the first line as a prefix. -/
theorem joinLines_head_concat (a : String) (l : List String) :
    ∃ r, joinLines (a :: l) = a ++ r := by
  cases l with
  | nil => exact ⟨"", by simp [joinLines]⟩
  | cons b t => exact ⟨"\n" ++ joinLines (b :: t), by simp [joinLines, String.append_assoc]⟩

/-- C6: for a structure with empty `markdown_content` and a non-empty
title, `export_to_markdown` synthesizes non-empty Markdown starting with
the line `# <title>` (the output is literally `"# " ++ title ++ "\n"`
followed by the rest), writes exactly that content to the output file,
and returns it. -/
theorem c6_fallback_markdown_has_title_heading (ds : DocumentStructure) (outputFile : String)
    (hmd : ds.markdown_content = "") (ht : ds.title ≠ "") :
    (export_to_markdown ds outputFile).1 ≠ "" ∧
    (∃ rest, (export_to_markdown ds outputFile).1 = "# " ++ ds.title ++ "\n" ++ rest) ∧
    (export_to_markdown ds outputFile).2 =
      [{ path := outputFile, content := .textFile (export_to_markdown ds outputFile).1 }] := by
  have hbeq : (ds.markdown_content == "") = true := by
    rw [hmd]; rfl
  have htbeq : (ds.title == "") = false := by
    cases h : ds.title == "" with
    | false => rfl
    | true => exact absurd (by simpa using h) ht
  have hcontent : (export_to_markdown ds outputFile).1 = createMarkdownFromStructure ds := by
    simp [export_to_markdown, hbeq]
  have hl : mdLines ds = ("# " ++ ds.title ++ "\n") ::
      ((if ds.authors.isEmpty then []
        else ["**Authors:** " ++ joinComma ds.authors ++ "\n"]) ++
       (ds.sections.map (fun s =>
         [headingHashes s.level ++ " " ++ s.title ++ "\n", s.content ++ "\n"])).flatten ++
       (if ds.tables.isEmpty then [] else "## Tables\n" :: tableLines ds.tables)) := by
    rw [mdLines, htbeq]
    simp
  set l := (if ds.authors.isEmpty then []
        else ["**Authors:** " ++ joinComma ds.authors ++ "\n"]) ++
       (ds.sections.map (fun s =>
         [headingHashes s.level ++ " " ++ s.title ++ "\n", s.content ++ "\n"])).flatten ++
       (if ds.tables.isEmpty then [] else "## Tables\n" :: tableLines ds.tables) with hldef
  obtain ⟨r, hr⟩ := joinLines_head_concat ("# " ++ ds.title ++ "\n") l
  have hval : (export_to_markdown ds outputFile).1 = ("# " ++ ds.title ++ "\n") ++ r := by
    rw [hcontent, createMarkdownFromStructure, hl, hr]
  refine ⟨?_, ⟨r, by rw [hval, String.append_assoc, String.append_assoc]⟩, ?_⟩
  · intro h0
    have hlen := congrArg String.length (h0 ▸ hval)
    have e1 : "# ".length = 2 := by decide
    have e2 : "\n".length = 1 := by decide
    simp [String.length_append, e1, e2] at hlen
    omega
  · simp [export_to_markdown]

/-- Structure with a title but no pre-rendered Markdown. -/
def titledStructure : DocumentStructure :=
  { title := "Annual Report", authors := [], sections := [], tables := [], images := [],
    formulas := [], metadata := none, raw_text := "", markdown_content := "",
    processing_stats := none }

/-- Witness for C6 on a concrete titled structure. -/
theorem c6_fallback_markdown_has_title_heading_witness :
    titledStructure.markdown_content = "" ∧ titledStructure.title ≠ "" ∧
    ((export_to_markdown titledStructure "/out/doc.md").1 ≠ "" ∧
     (∃ rest, (export_to_markdown titledStructure "/out/doc.md").1 =
        "# " ++ titledStructure.title ++ "\n" ++ rest) ∧
     (export_to_markdown titledStructure "/out/doc.md").2 =
       [{ path := "/out/doc.md",
          content := .textFile (export_to_markdown titledStructure "/out/doc.md").1 }]) :=
  ⟨rfl, by decide,
   c6_fallback_markdown_has_title_heading titledStructure "/out/doc.md" rfl (by decide)⟩

/-- Entries whose suffix is a keep-suffix survive the deletion loop. -/
theorem cleanupLoop_preserves_kept (l : List DirEntry) :
    ∀ e ∈ l, keepSuffixes.contains (pySuffix e.name) = true →
      e ∈ (cleanupLoop true l).1 := by
  induction l with
  | nil => intro e he; cases he
  | cons a rest ih =>
    intro e he hk
    rcases List.mem_cons.mp he with rfl | hmem
    · rw [cleanupLoop]
      simp only [Bool.true_and, hk, if_true]
      rcases hrec : cleanupLoop true rest with ⟨kept, err⟩
      exact List.mem_cons_self _ _
    · rw [cleanupLoop]
      by_cases ha : keepSuffixes.contains (pySuffix a.name)
      · simp only [Bool.true_and, ha, if_true]
        rcases hrec : cleanupLoop true rest with ⟨kept, err⟩
        have := ih e hmem hk
        rw [hrec] at this
        exact List.mem_cons_of_mem _ this
      · simp only [Bool.true_and, ha, if_false]
        cases hu : a.unlinkError with
        | some m => exact List.mem_cons_of_mem _ hmem
        | none => exact ih e hmem hk

/-- When no `unlink` fails, the loop removes every entry whose suffix is
not a keep-suffix. -/
theorem cleanupLoop_removes_rest (l : List DirEntry)
    (hok : ∀ e ∈ l, e.unlinkError = none) :
    ∀ e ∈ (cleanupLoop true l).1, keepSuffixes.contains (pySuffix e.name) = true := by
  induction l with
  | nil => intro e he; simp [cleanupLoop] at he
  | cons a rest ih =>
    have hok' : ∀ e ∈ rest, e.unlinkError = none :=
      fun e he => hok e (List.mem_cons_of_mem _ he)
    intro e he
    rw [cleanupLoop] at he
    by_cases ha : keepSuffixes.contains (pySuffix a.name)
    · rw [Bool.true_and, if_pos ha] at he
      rcases hrec : cleanupLoop true rest with ⟨kept, err⟩
      rw [hrec] at he
      rcases List.mem_cons.mp he with rfl | hmem
      · exact ha
      · have := ih hok' e
        rw [hrec] at this
        exact this hmem
    · rw [Bool.true_and, if_neg ha] at he
      rw [hok a (List.mem_cons_self _ _)] at he
      exact ih hok' e he

/-- C7 counterexample input: an existing directory holding first an
entry on which `unlink` raises (say, a subdirectory) and then a plain
`.txt` file. -/
def c7dir : DirState :=
  { dirExists := true,
    entries := [{ name := "assets", unlinkError := some "Is a directory" },
                { name := "left.txt", unlinkError := none }] }

/-- C7 counterexample: with `keep_main_files = True` on `c7dir`, the
failing first `unlink` aborts the loop (the exception is caught and only
logged), so `left.txt` - whose extension is neither `.md` nor `.json` -
is NOT removed, refuting the claim that every such file is removed. -/
theorem c7_counterexample_failure_aborts_removal :
    cleanup_temp_files c7dir true =
      ({ dirExists := true,
         entries := [{ name := "assets", unlinkError := some "Is a directory" },
                     { name := "left.txt", unlinkError := none }] },
       some "Is a directory") ∧
    pySuffix "left.txt" = ".txt" := by
  exact ⟨rfl, by decide⟩

/-- C7 (amended): on an existing directory, `cleanup_temp_files` with
`keep_main_files = True` never removes a `.md` or `.json` file; when no
`unlink` raises it removes every other file; and any `unlink` failure is
swallowed - the method returns normally with the exception only logged
(the model returns the directory plus the logged text instead of
propagating an error). -/
theorem c7_cleanup_keeps_md_json_removes_rest (d : DirState) (hd : d.dirExists = true) :
    (∀ e ∈ d.entries, keepSuffixes.contains (pySuffix e.name) = true →
        e ∈ (cleanup_temp_files d true).1.entries) ∧
    ((∀ e ∈ d.entries, e.unlinkError = none) →
        ∀ e ∈ (cleanup_temp_files d true).1.entries,
          keepSuffixes.contains (pySuffix e.name) = true) := by
  have hc : cleanup_temp_files d true =
      ({ d with entries := (cleanupLoop true d.entries).1 }, (cleanupLoop true d.entries).2) := by
    rw [cleanup_temp_files, if_pos hd]
  rw [hc]
  exact ⟨fun e he hk => cleanupLoop_preserves_kept d.entries e he hk,
         fun hok e he => cleanupLoop_removes_rest d.entries hok e he⟩

/-- Directory mixing keep-extension files with removable ones, no
failures. -/
def c7okDir : DirState :=
  { dirExists := true,
    entries := [{ name := "report.md", unlinkError := none },
                { name := "table_0.json", unlinkError := none },
                { name := "scratch.tmp", unlinkError := none }] }

/-- Witness for C7 (amended) on a concrete directory. -/
theorem c7_cleanup_keeps_md_json_removes_rest_witness :
    c7okDir.dirExists = true ∧
    ({ name := "report.md", unlinkError := none } : DirEntry) ∈
      (cleanup_temp_files c7okDir true).1.entries ∧
    (∀ e ∈ (cleanup_temp_files c7okDir true).1.entries,
      keepSuffixes.contains (pySuffix e.name) = true) :=
  ⟨rfl,
   (c7_cleanup_keeps_md_json_removes_rest c7okDir rfl).1 _ (by decide) (by decide),
   (c7_cleanup_keeps_md_json_removes_rest c7okDir rfl).2 (by decide)⟩
